import Mathlib

/-!
Verification development for the FocusAI backend (src/main.py, src/schemas.py).

The embedding below translates the pure relevance classifier
(`classify_relevance` in src/main.py) and the stateful session endpoints
(`start_session`, `update_activity`, `end_session`, `session_summary`)
into Lean.  Python strings are modelled as Lean `String`; the Python
substring test `kw in text` is infix containment on the character lists;
`str.lower()` is character-wise lowering; `str.split()` splits on runs
of whitespace and drops empty pieces.  The Mongo document store is
modelled as a map from numeric ids to session documents together with a
fresh-id counter and the append-only list of activity events; Mongo's
`$inc` / `$set` updates become functional record updates keyed by the
session id.
-/

namespace FocusAI

/-- Python `kw in text`: `kw` occurs as a contiguous substring of `text`. -/
def occursIn (kw text : String) : Prop := kw.toList <:+: text.toList

instance (kw text : String) : Decidable (occursIn kw text) :=
  List.decidableInfix kw.toList text.toList

/-- Python `s.lower()`, modelled character-wise. -/
def lowerStr (s : String) : String := String.mk (s.toList.map Char.toLower)

/-- `BLOCKLIST_KEYWORDS` from src/main.py, in declaration order
(Python dicts iterate in insertion order). -/
def BLOCKLIST_KEYWORDS : List (String × List String) :=
  [("social", ["twitter", "x.com", "facebook", "instagram", "tiktok", "reddit"]),
   ("nsfw", ["porn", "nsfw", "xxx"]),
   ("games", ["steam", "epicgames", "roblox", "league of legends", "valorant"])]

/-- Python `BLOCKLIST_KEYWORDS.get(cat, [])`. -/
def blocklistGet (cat : String) : List String :=
  match BLOCKLIST_KEYWORDS.lookup cat with
  | some kws => kws
  | none => []

/-- The blob `" ".join([goal.lower(), (title or "").lower(), (url or "").lower()])`
built at the top of `classify_relevance`. -/
def joinedText (goal : String) (title url : Option String) : String :=
  lowerStr goal ++ " " ++ lowerStr (title.getD "") ++ " " ++ lowerStr (url.getD "")

/-- The reason f-string for a blocked-keyword match. -/
def matchReason (kw cat : String) : String :=
  "Matched blocked keyword \x27" ++ kw ++ "\x27 in category \x27" ++ cat ++ "\x27"

/-- The nested `for cat in categories: for kw in BLOCKLIST_KEYWORDS.get(cat, []):`
loop of `classify_relevance`: first keyword of the first listed category
that occurs in `text`, scanning categories in the order the session lists
them. -/
def findBlocked (categories : List String) (text : String) : Option (String × String) :=
  match categories with
  | [] => none
  | cat :: rest =>
    match (blocklistGet cat).find? (fun kw => decide (occursIn kw text)) with
    | some kw => some (kw, cat)
    | none => findBlocked rest text

/-- Python `str.split()` on a character list: runs of whitespace separate
words, no empty words are produced (auxiliary, carrying the reversed
current word). -/
def splitWSGo : List Char → List Char → List (List Char)
  | [], acc => if acc = [] then [] else [acc.reverse]
  | c :: cs, acc =>
    if c.isWhitespace then
      if acc = [] then splitWSGo cs [] else acc.reverse :: splitWSGo cs []
    else
      splitWSGo cs (c :: acc)

/-- Python `str.split()` on a character list. -/
def splitWS (l : List Char) : List (List Char) := splitWSGo l []

/-- `[w for w in goal.lower().split() if len(w) > 3]` in `classify_relevance`. -/
def goalWords (goal : String) : List (List Char) :=
  (splitWS (lowerStr goal).toList).filter (fun w => decide (3 < w.length))

/-- `classify_relevance(goal, title, url, categories)` from src/main.py. -/
def classify_relevance (goal : String) (title url : Option String)
    (categories : List String) : String × String :=
  match findBlocked categories (joinedText goal title url) with
  | some (kw, cat) => ("irrelevant", matchReason kw cat)
  | none =>
    if (goalWords goal).any
        (fun w => decide (w <:+: (joinedText goal title url).toList)) then
      ("relevant", "Goal keywords found in current context")
    else
      ("relevant", "No blocklisted signals detected")

/-- Session lifecycle status, `Literal["active", "ended"]` in src/schemas.py. -/
inductive Status
  | active
  | ended
deriving DecidableEq

/-- The persisted `Session` document of src/schemas.py (the timestamp and
voice fields irrelevant to the claims are kept where the claims mention
them; timestamps are not modelled). -/
structure SessionDoc where
  user_id : String
  goal : String
  duration_minutes : Int
  categories : List String
  voice : String
  total_focus_seconds : Int
  total_idle_seconds : Int
  distractions_blocked : Int
  status : Status
deriving DecidableEq

/-- The persisted `ActivityEvent` document of src/schemas.py. -/
structure ActivityEventDoc where
  session_id : Nat
  user_id : String
  app : Option String
  url : Option String
  title : Option String
  idle : Bool
  decision : String
  reason : String
deriving DecidableEq

/-- The document store: the `session` collection as a map from
store-generated ids to documents, the fresh-id counter, and the
append-only `activityevent` collection. -/
structure Store where
  sessions : Nat → Option SessionDoc
  nextId : Nat
  events : List ActivityEventDoc

/-- The empty store. -/
def emptyStore : Store := { sessions := fun _ => none, nextId := 0, events := [] }

/-- Request body of POST /api/session/start (`StartSessionRequest` in
src/main.py; note it carries no bound on `duration_minutes` itself —
the bound lives on the `Session` schema). -/
structure StartSessionRequest where
  user_id : String
  goal : String
  duration_minutes : Int
  categories : List String
  voice : Option String
deriving DecidableEq

/-- Request body of POST /api/session/activity (`UpdateActivityRequest`). -/
structure UpdateActivityRequest where
  session_id : Nat
  user_id : String
  app : Option String
  url : Option String
  title : Option String
  idle : Bool
deriving DecidableEq

/-- Errors surfaced by the endpoints: the pydantic range validation on
`Session.duration_minutes` (ge=1, le=480) and the 404 HTTPException. -/
inductive ApiError
  | validationError
  | notFound (detail : String)
deriving DecidableEq

/-- The `Session(...)` document built by `start_session`: pydantic
validates `duration_minutes` against ge=1, le=480. -/
def newSessionDoc (p : StartSessionRequest) : SessionDoc :=
  { user_id := p.user_id
    goal := p.goal
    duration_minutes := p.duration_minutes
    categories := p.categories
    voice := p.voice.getD "Cluely"
    total_focus_seconds := 0
    total_idle_seconds := 0
    distractions_blocked := 0
    status := Status.active }

/-- POST /api/session/start: validate the duration bound, insert the new
document under a fresh id, and return the id with status "active". -/
def start_session (st : Store) (p : StartSessionRequest) :
    Except ApiError (Store × Nat × Status) :=
  if 1 ≤ p.duration_minutes ∧ p.duration_minutes ≤ 480 then
    Except.ok
      ({ st with
          sessions := fun k => if k = st.nextId then some (newSessionDoc p) else st.sessions k
          nextId := st.nextId + 1 },
        st.nextId, Status.active)
  else
    Except.error ApiError.validationError

/-- POST /api/session/activity (`update_activity` in src/main.py): look
the session up (404 when absent), classify, append the classified
`ActivityEvent`, and apply the `$inc` of exactly one counter. -/
def update_activity (st : Store) (p : UpdateActivityRequest) :
    Except ApiError (Store × String × String) :=
  match st.sessions p.session_id with
  | none => Except.error (ApiError.notFound "Session not found")
  | some sdoc =>
    let dr := classify_relevance sdoc.goal p.title p.url sdoc.categories
    let ev : ActivityEventDoc :=
      { session_id := p.session_id, user_id := p.user_id, app := p.app,
        url := p.url, title := p.title, idle := p.idle,
        decision := dr.1, reason := dr.2 }
    let sdoc' :=
      if dr.1 = "irrelevant" then
        { sdoc with distractions_blocked := sdoc.distractions_blocked + 1 }
      else
        { sdoc with total_focus_seconds := sdoc.total_focus_seconds + 30 }
    Except.ok
      ({ st with
          sessions := fun k => if k = p.session_id then some sdoc' else st.sessions k
          events := st.events ++ [ev] },
        dr.1, dr.2)

/-- POST /api/session/end: `update_one` setting status to "ended"; 404
when no document matched. -/
def end_session (st : Store) (session_id : Nat) : Except ApiError (Store × Status) :=
  match st.sessions session_id with
  | none => Except.error (ApiError.notFound "Session not found")
  | some sdoc =>
    Except.ok
      ({ st with
          sessions := fun k =>
            if k = session_id then some { sdoc with status := Status.ended }
            else st.sessions k },
        Status.ended)

/-- `get_documents("session", {"user_id": user_id}, limit=50)`: the
store enumerates documents in insertion order, filters on the user id
and applies the limit. -/
def get_documents (st : Store) (uid : String) (limit : Nat) : List SessionDoc :=
  (((List.range st.nextId).filterMap st.sessions).filter
    (fun d => d.user_id == uid)).take limit

/-- Response of GET /api/session/{user_id}/summary. -/
structure SummaryResponse where
  sessions : Nat
  total_focus_seconds : Int
  total_idle_seconds : Int
  distractions_blocked : Int
  streak_days : Nat
deriving DecidableEq

/-- `session_summary` from src/main.py: sum the three counters over up
to 50 of the user's sessions and report `min(count, 7)` as the streak. -/
def session_summary (st : Store) (uid : String) : SummaryResponse :=
  { sessions := (get_documents st uid 50).length
    total_focus_seconds := ((get_documents st uid 50).map
      (fun s => s.total_focus_seconds)).sum
    total_idle_seconds := ((get_documents st uid 50).map
      (fun s => s.total_idle_seconds)).sum
    distractions_blocked := ((get_documents st uid 50).map
      (fun s => s.distractions_blocked)).sum
    streak_days := min (get_documents st uid 50).length 7 }

/-! Helper lemmas. -/

theorem toList_append (a b : String) : (a ++ b).toList = a.toList ++ b.toList :=
  String.data_append a b

theorem mem_splitWSGo_sub (l : List Char) :
    ∀ acc w, w ∈ splitWSGo l acc → w <:+: acc.reverse ++ l := by
  induction l with
  | nil =>
    intro acc w hw
    by_cases hacc : acc = []
    · simp [splitWSGo, hacc] at hw
    · simp only [splitWSGo, if_neg hacc, List.mem_singleton] at hw
      subst hw
      simp
  | cons c cs ih =>
    intro acc w hw
    by_cases hc : c.isWhitespace
    · by_cases hacc : acc = []
      · simp only [splitWSGo, hc, if_true, hacc, if_pos rfl] at hw
        have h1 : w <:+: cs := by simpa using ih [] w hw
        have h2 : (cs : List Char) <:+ c :: cs := List.suffix_cons c cs
        have h3 : w <:+: c :: cs := h1.trans h2.isInfix
        simpa [hacc] using h3
      · simp only [splitWSGo, hc, if_true, if_neg hacc, List.mem_cons] at hw
        rcases hw with hw | hw
        · subst hw
          exact ( List.prefix_append acc.reverse (c :: cs)).isInfix
        · have h1 : w <:+: cs := by simpa using ih [] w hw
          have h2 : (cs : List Char) <:+ acc.reverse ++ c :: cs := by
            have : (cs : List Char) <:+ c :: cs := List.suffix_cons c cs
            exact this.trans (List.suffix_append acc.reverse (c :: cs))
          exact h1.trans h2.isInfix
    · simp only [splitWSGo, hc, if_false] at hw
      have h1 := ih (c :: acc) w hw
      rw [List.reverse_cons, List.append_assoc] at h1
      simpa using h1

theorem mem_splitWS_sub (l : List Char) (w : List Char) (hw : w ∈ splitWS l) :
    w <:+: l := by
  simpa using mem_splitWSGo_sub l [] w hw

theorem findBlocked_eq_none_iff (categories : List String) (text : String) :
    findBlocked categories text = none ↔
      ∀ cat ∈ categories, ∀ kw ∈ blocklistGet cat, ¬ occursIn kw text := by
  induction categories with
  | nil => simp [findBlocked]
  | cons cat rest ih =>
    constructor
    · intro h c hc kw hkw
      rw [findBlocked] at h
      rcases hfind : (blocklistGet cat).find? (fun kw => decide (occursIn kw text)) with
        _ | kw₀
      · rw [hfind] at h
        simp only [List.mem_cons] at hc
        rcases hc with hc | hc
        · subst hc
          have := List.find?_eq_none.mp hfind kw hkw
          simpa using this
        · exact (ih.mp h) c hc kw hkw
      · rw [hfind] at h
        exact absurd h (by simp)
    · intro h
      rw [findBlocked]
      have hnone : (blocklistGet cat).find? (fun kw => decide (occursIn kw text)) = none := by
        apply List.find?_eq_none.mpr
        intro kw hkw
        simpa using h cat (List.mem_cons_self cat rest) kw hkw
      rw [hnone]
      exact ih.mpr (fun c hc kw hkw => h c (List.mem_cons_of_mem cat hc) kw hkw)

theorem findBlocked_some_spec (categories : List String) (text : String)
    (kw cat : String) (h : findBlocked categories text = some (kw, cat)) :
    cat ∈ categories ∧ kw ∈ blocklistGet cat ∧ occursIn kw text := by
  induction categories with
  | nil => simp [findBlocked] at h
  | cons c rest ih =>
    rw [findBlocked] at h
    rcases hfind : (blocklistGet c).find? (fun kw => decide (occursIn kw text)) with
      _ | kw₀
    · rw [hfind] at h
      have := ih h
      exact ⟨List.mem_cons_of_mem c this.1, this.2.1, this.2.2⟩
    · rw [hfind] at h
      have hinj : kw₀ = kw ∧ c = cat := by
        have := h
        simp only [Option.some.injEq, Prod.mk.injEq] at this
        exact this
      rcases hinj with ⟨h1, h2⟩
      rw [← h2, ← h1]
      refine ⟨List.mem_cons_self c rest, List.mem_of_find?_eq_some hfind, ?_⟩
      have := List.find?_some hfind
      simpa using this

theorem find?_of_first {α : Type} (p : α → Bool) (pre post : List α) (a : α)
    (hpre : ∀ x ∈ pre, p x = false) (ha : p a = true) :
    List.find? p (pre ++ a :: post) = some a := by
  induction pre with
  | nil => simp [List.find?, ha]
  | cons x xs ih =>
    have hx : p x = false := hpre x (List.mem_cons_self x xs)
    simp only [List.cons_append, List.find?, hx]
    exact ih (fun y hy => hpre y (List.mem_cons_of_mem x hy))

/-- Which (keyword, category) pair is the first match: scan the
session's `categories` list in order, and within a category scan its
keyword list in table order. -/
def FirstMatch (categories : List String) (text : String) (kw cat : String) : Prop :=
  ∃ pre post, categories = pre ++ cat :: post ∧
    (∀ c ∈ pre, ∀ k ∈ blocklistGet c, ¬ occursIn k text) ∧
    ∃ kpre kpost, blocklistGet cat = kpre ++ kw :: kpost ∧
      (∀ k ∈ kpre, ¬ occursIn k text) ∧ occursIn kw text

theorem findBlocked_of_firstMatch (categories : List String) (text : String)
    (kw cat : String) (h : FirstMatch categories text kw cat) :
    findBlocked categories text = some (kw, cat) := by
  rcases h with ⟨pre, post, hcats, hpre, kpre, kpost, hkws, hkpre, hkw⟩
  subst hcats
  induction pre with
  | nil =>
    simp only [List.nil_append, findBlocked]
    have : (blocklistGet cat).find? (fun k => decide (occursIn k text)) = some kw := by
      rw [hkws]
      exact find?_of_first _ kpre kpost kw
        (fun k hk => by simpa using hkpre k hk) (by simpa using hkw)
    rw [this]
  | cons c cs ih =>
    simp only [List.cons_append, findBlocked]
    have hnone : (blocklistGet c).find? (fun k => decide (occursIn k text)) = none := by
      apply List.find?_eq_none.mpr
      intro k hk
      simpa using hpre c (List.mem_cons_self c cs) k hk
    rw [hnone]
    exact ih (fun c' hc' => hpre c' (List.mem_cons_of_mem c hc'))

theorem classify_of_findBlocked_some (goal : String) (title url : Option String)
    (categories : List String) (kw cat : String)
    (h : findBlocked categories (joinedText goal title url) = some (kw, cat)) :
    classify_relevance goal title url categories = ("irrelevant", matchReason kw cat) := by
  rw [classify_relevance, h]

theorem occursIn_left_of_append (a b : String) : occursIn a (a ++ b) := by
  rw [occursIn, toList_append]
  exact ( List.prefix_append a.toList b.toList).isInfix

theorem occursIn_mid (a b c : String) : occursIn b (a ++ b ++ c) := by
  rw [occursIn, toList_append, toList_append]
  exact List.infix_append a.toList b.toList c.toList

theorem occursIn_kw_matchReason (kw cat : String) : occursIn kw (matchReason kw cat) := by
  have h := occursIn_mid "Matched blocked keyword \x27" kw
    ("\x27 in category \x27" ++ cat ++ "\x27")
  rw [occursIn] at h ⊢
  rw [matchReason]
  simpa [toList_append, List.append_assoc] using h

theorem occursIn_cat_matchReason (kw cat : String) : occursIn cat (matchReason kw cat) := by
  have h := occursIn_mid ("Matched blocked keyword \x27" ++ kw ++ "\x27 in category \x27")
    cat "\x27"
  rw [occursIn] at h ⊢
  rw [matchReason]
  simpa [toList_append, List.append_assoc] using h

/-- One client-visible operation against the store. -/
inductive Op
  | start (p : StartSessionRequest)
  | activity (p : UpdateActivityRequest)
  | endSession (session_id : Nat)

/-- Run one operation; a failed operation leaves the store unchanged
(each handler raises before any write when its lookup fails). -/
def applyOp (st : Store) (op : Op) : Store :=
  match op with
  | Op.start p =>
    match start_session st p with
    | Except.ok r => r.1
    | Except.error _ => st
  | Op.activity p =>
    match update_activity st p with
    | Except.ok r => r.1
    | Except.error _ => st
  | Op.endSession sid =>
    match end_session st sid with
    | Except.ok r => r.1
    | Except.error _ => st

/-- Run a sequence of operations from a starting store. -/
def runOps (ops : List Op) (st : Store) : Store := ops.foldl applyOp st

/-- Store well-formedness: ids at or above the fresh-id counter are unused. -/
def Store.WF (st : Store) : Prop := ∀ k, st.nextId ≤ k → st.sessions k = none

/-- Per-session facts preserved by every operation: the three counters
only grow and an ended status stays ended. -/
def counterLe (d d' : SessionDoc) : Prop :=
  d.total_focus_seconds ≤ d'.total_focus_seconds ∧
  d.total_idle_seconds ≤ d'.total_idle_seconds ∧
  d.distractions_blocked ≤ d'.distractions_blocked ∧
  (d.status = Status.ended → d'.status = Status.ended)

theorem counterLe_refl (d : SessionDoc) : counterLe d d :=
  ⟨le_refl _, le_refl _, le_refl _, fun h => h⟩

theorem counterLe_trans (a b c : SessionDoc) (h1 : counterLe a b) (h2 : counterLe b c) :
    counterLe a c :=
  ⟨h1.1.trans h2.1, h1.2.1.trans h2.2.1, h1.2.2.1.trans h2.2.2.1,
    fun h => h2.2.2.2 (h1.2.2.2 h)⟩

theorem emptyStore_WF : emptyStore.WF := fun _ _ => rfl

theorem applyOp_WF (st : Store) (op : Op) (h : st.WF) : (applyOp st op).WF := by
  cases op with
  | start p =>
    rw [applyOp, start_session]
    by_cases hv : 1 ≤ p.duration_minutes ∧ p.duration_minutes ≤ 480
    · rw [if_pos hv]
      intro k hk
      simp only at hk ⊢
      have hne : k ≠ st.nextId := by omega
      rw [if_neg hne]
      exact h k (by omega)
    · rw [if_neg hv]
      exact h
  | activity p =>
    rw [applyOp, update_activity]
    rcases hs : st.sessions p.session_id with _ | sdoc
    · exact h
    · intro k hk
      simp only at hk ⊢
      have hne : k ≠ p.session_id := by
        intro he
        rw [he] at hk
        rw [h p.session_id hk] at hs
        exact absurd hs (by simp)
      rw [if_neg hne]
      exact h k hk
  | endSession sid =>
    rw [applyOp, end_session]
    rcases hs : st.sessions sid with _ | sdoc
    · exact h
    · intro k hk
      simp only at hk ⊢
      have hne : k ≠ sid := by
        intro he
        rw [he] at hk
        rw [h sid hk] at hs
        exact absurd hs (by simp)
      rw [if_neg hne]
      exact h k hk

theorem applyOp_mono (st : Store) (op : Op) (h : st.WF) (id : Nat) (d : SessionDoc)
    (hd : st.sessions id = some d) :
    ∃ d', (applyOp st op).sessions id = some d' ∧ counterLe d d' := by
  cases op with
  | start p =>
    rw [applyOp, start_session]
    by_cases hv : 1 ≤ p.duration_minutes ∧ p.duration_minutes ≤ 480
    · rw [if_pos hv]
      refine ⟨d, ?_, counterLe_refl d⟩
      simp only
      have hne : id ≠ st.nextId := by
        intro he
        rw [he, h st.nextId (le_refl _)] at hd
        exact absurd hd (by simp)
      rw [if_neg hne]
      exact hd
    · rw [if_neg hv]
      exact ⟨d, hd, counterLe_refl d⟩
  | activity p =>
    rw [applyOp, update_activity]
    rcases hs : st.sessions p.session_id with _ | sdoc
    · exact ⟨d, hd, counterLe_refl d⟩
    · simp only
      by_cases he : id = p.session_id
      · subst he
        rw [if_pos rfl]
        have hds : sdoc = d := by
          rw [hd] at hs
          exact (Option.some.inj hs).symm
        subst hds
        by_cases hdec :
            (classify_relevance sdoc.goal p.title p.url sdoc.categories).1 = "irrelevant"
        · rw [if_pos hdec]
          exact ⟨_, rfl, le_refl _, le_refl _, by simp, fun h => h⟩
        · rw [if_neg hdec]
          exact ⟨_, rfl, by simp, le_refl _, le_refl _, fun h => h⟩
      · rw [if_neg he]
        exact ⟨d, hd, counterLe_refl d⟩
  | endSession sid =>
    rw [applyOp, end_session]
    rcases hs : st.sessions sid with _ | sdoc
    · exact ⟨d, hd, counterLe_refl d⟩
    · simp only
      by_cases he : id = sid
      · subst he
        rw [if_pos rfl]
        have hds : sdoc = d := by
          rw [hd] at hs
          exact (Option.some.inj hs).symm
        subst hds
        exact ⟨_, rfl, le_refl _, le_refl _, le_refl _, fun _ => rfl⟩
      · rw [if_neg he]
        exact ⟨d, hd, counterLe_refl d⟩

theorem runOps_WF (ops : List Op) (st : Store) (h : st.WF) : (runOps ops st).WF := by
  induction ops generalizing st with
  | nil => exact h
  | cons op rest ih => exact ih (applyOp st op) (applyOp_WF st op h)

theorem runOps_mono (ops : List Op) (st : Store) (h : st.WF) (id : Nat) (d : SessionDoc)
    (hd : st.sessions id = some d) :
    ∃ d', (runOps ops st).sessions id = some d' ∧ counterLe d d' := by
  induction ops generalizing st d with
  | nil => exact ⟨d, hd, counterLe_refl d⟩
  | cons op rest ih =>
    rcases applyOp_mono st op h id d hd with ⟨d₁, hd₁, hle₁⟩
    rcases ih (applyOp st op) (applyOp_WF st op h) d₁ hd₁ with ⟨d₂, hd₂, hle₂⟩
    exact ⟨d₂, hd₂, counterLe_trans d d₁ d₂ hle₁ hle₂⟩

theorem classify_decision_cases (g : String) (t u : Option String) (c : List String) :
    (classify_relevance g t u c).1 = "relevant" ∨
    (classify_relevance g t u c).1 = "irrelevant" := by
  rw [classify_relevance]
  split
  · right; rfl
  · split
    · left; rfl
    · left; rfl

theorem classify_of_none_goal_kw (g : String) (t u : Option String) (c : List String)
    (hnone : findBlocked c (joinedText g t u) = none)
    (hany : ∃ w ∈ goalWords g, w <:+: (joinedText g t u).toList) :
    classify_relevance g t u c = ("relevant", "Goal keywords found in current context") := by
  have hany' : ((goalWords g).any fun w => decide (w <:+: (joinedText g t u).toList)) = true := by
    rw [List.any_eq_true]
    rcases hany with ⟨w, hw, hin⟩
    exact ⟨w, hw, by simpa using hin⟩
  rw [classify_relevance, hnone]
  simp only [hany', if_true]

theorem classify_of_none_default (g : String) (t u : Option String) (c : List String)
    (hnone : findBlocked c (joinedText g t u) = none)
    (hnot : ∀ w ∈ goalWords g, ¬ w <:+: (joinedText g t u).toList) :
    classify_relevance g t u c = ("relevant", "No blocklisted signals detected") := by
  have hany' : ((goalWords g).any fun w => decide (w <:+: (joinedText g t u).toList)) = false := by
    rw [← Bool.not_eq_true, List.any_eq_true]
    intro hex
    rcases hex with ⟨w, hw, hin⟩
    exact hnot w hw (by simpa using hin)
  rw [classify_relevance, hnone]
  simp only [hany', Bool.false_eq_true, if_false]

/-- The lowercased goal is a prefix of the classifier blob, so it is an
infix of it. -/
theorem lower_goal_sub_joined (g : String) (t u : Option String) :
    (lowerStr g).toList <+: (joinedText g t u).toList := by
  rw [joinedText]
  rw [toList_append, toList_append, toList_append, toList_append]
  rw [List.append_assoc, List.append_assoc, List.append_assoc]
  exact List.prefix_append _ _

/-! Concrete fixtures used by witnesses and counterexamples. -/

/-- A concrete active session document. -/
def wSession : SessionDoc :=
  { user_id := "u1", goal := "finish report", duration_minutes := 25,
    categories := ["social"], voice := "Cluely", total_focus_seconds := 0,
    total_idle_seconds := 0, distractions_blocked := 0, status := Status.active }

/-- A one-session store holding `wSession` under id 0. -/
def wStore : Store :=
  { sessions := fun k => if k = 0 then some wSession else none, nextId := 1, events := [] }

/-- A concrete activity request that triggers the social blocklist. -/
def wActivity : UpdateActivityRequest :=
  { session_id := 0, user_id := "u1", app := none, url := none,
    title := some "Twitter feed", idle := false }

/-- `wSession` already ended. -/
def wEndedSession : SessionDoc := { wSession with status := Status.ended }

/-- A one-session store holding the ended `wEndedSession` under id 0. -/
def wEndedStore : Store :=
  { sessions := fun k => if k = 0 then some wEndedSession else none,
    nextId := 1, events := [] }

/-- A concrete start request with the given duration. -/
def wStartDur (d : Int) : StartSessionRequest :=
  { user_id := "u1", goal := "finish report", duration_minutes := d,
    categories := ["social"], voice := none }

/-- First summary-example session: focus 60, idle 0, 1 distraction. -/
def sumDoc1 : SessionDoc :=
  { user_id := "u1", goal := "a", duration_minutes := 25, categories := [],
    voice := "Cluely", total_focus_seconds := 60, total_idle_seconds := 0,
    distractions_blocked := 1, status := Status.ended }

/-- Second summary-example session: focus 90, idle 0, 2 distractions. -/
def sumDoc2 : SessionDoc :=
  { user_id := "u1", goal := "b", duration_minutes := 25, categories := [],
    voice := "Cluely", total_focus_seconds := 90, total_idle_seconds := 0,
    distractions_blocked := 2, status := Status.ended }

/-- The store holding exactly the two summary-example sessions of user "u1". -/
def sumStore : Store :=
  { sessions := fun k => if k = 0 then some sumDoc1 else if k = 1 then some sumDoc2 else none,
    nextId := 2, events := [] }

/-! Claim theorems. -/

/-- Claim C1: the classifier blob joins goal, title-or-empty and
url-or-empty, lowercased, with a separator, in exactly that order; if
any keyword of any enabled category occurs as a substring of the blob,
the decision is irrelevant with a reason naming a matched keyword and
its category; in particular goal "finish report", categories
["social"], title "Twitter feed" is irrelevant with a reason mentioning
"twitter" and "social". -/
theorem C1_blocklist_irrelevant (goal : String) (title url : Option String)
    (categories : List String)
    (h : ∃ cat ∈ categories, ∃ kw ∈ blocklistGet cat,
      occursIn kw (joinedText goal title url)) :
    joinedText goal title url =
      lowerStr goal ++ " " ++ lowerStr (title.getD "") ++ " " ++ lowerStr (url.getD "") ∧
    (classify_relevance goal title url categories).1 = "irrelevant" ∧
    (∃ cat ∈ categories, ∃ kw ∈ blocklistGet cat,
      occursIn kw (joinedText goal title url) ∧
      classify_relevance goal title url categories = ("irrelevant", matchReason kw cat) ∧
      occursIn kw (classify_relevance goal title url categories).2 ∧
      occursIn cat (classify_relevance goal title url categories).2) ∧
    classify_relevance "finish report" (some "Twitter feed") none ["social"] =
      ("irrelevant", matchReason "twitter" "social") ∧
    occursIn "twitter"
      (classify_relevance "finish report" (some "Twitter feed") none ["social"]).2 ∧
    occursIn "social"
      (classify_relevance "finish report" (some "Twitter feed") none ["social"]).2 := by
  refine ⟨rfl, ?_, ?_, by decide, by decide, by decide⟩
  all_goals
    rcases hfb : findBlocked categories (joinedText goal title url) with _ | ⟨kw₀, cat₀⟩
  · rcases h with ⟨cat, hcat, kw, hkw, hocc⟩
    exact absurd hocc ((findBlocked_eq_none_iff categories _).mp hfb cat hcat kw hkw)
  · rw [classify_of_findBlocked_some goal title url categories kw₀ cat₀ hfb]
  · rcases h with ⟨cat, hcat, kw, hkw, hocc⟩
    exact absurd hocc ((findBlocked_eq_none_iff categories _).mp hfb cat hcat kw hkw)
  · rcases findBlocked_some_spec categories _ kw₀ cat₀ hfb with ⟨hcat₀, hkw₀, hocc₀⟩
    refine ⟨cat₀, hcat₀, kw₀, hkw₀, hocc₀, ?_, ?_, ?_⟩
    · exact classify_of_findBlocked_some goal title url categories kw₀ cat₀ hfb
    · rw [classify_of_findBlocked_some goal title url categories kw₀ cat₀ hfb]
      exact occursIn_kw_matchReason kw₀ cat₀
    · rw [classify_of_findBlocked_some goal title url categories kw₀ cat₀ hfb]
      exact occursIn_cat_matchReason kw₀ cat₀

/-- Witness for C1 at goal "finish report", title "Twitter feed",
categories ["social"]. -/
theorem C1_blocklist_irrelevant_witness :
    (∃ cat ∈ ["social"], ∃ kw ∈ blocklistGet cat,
      occursIn kw (joinedText "finish report" (some "Twitter feed") none)) ∧
    (classify_relevance "finish report" (some "Twitter feed") none ["social"]).1 =
      "irrelevant" :=
  ⟨⟨"social", by decide, "twitter", by decide, by decide⟩,
   (C1_blocklist_irrelevant "finish report" (some "Twitter feed") none ["social"]
     ⟨"social", by decide, "twitter", by decide, by decide⟩).2.1⟩

/-- Counterexample to claim C3 as stated: the code capitalizes both
fallback reasons, so the reason is not exactly the claimed lowercase
string at the claim's own example input. -/
theorem C3_counterexample :
    classify_relevance "abc" (some "Unrelated Page") none [] =
      ("relevant", "No blocklisted signals detected") ∧
    (classify_relevance "abc" (some "Unrelated Page") none []).2 ≠
      "no blocklisted signals detected" ∧
    classify_relevance "write thesis chapter" (some "Thesis Draft") none [] =
      ("relevant", "Goal keywords found in current context") ∧
    (classify_relevance "write thesis chapter" (some "Thesis Draft") none []).2 ≠
      "goal keywords found in current context" := by decide

/-- Claim C3 (amended: the two reasons are the code's capitalized
strings "Goal keywords found in current context" and "No blocklisted
signals detected"): when no blocked keyword matches, a goal word longer
than 3 characters occurring in the blob yields the goal-keyword reason,
otherwise the default reason; the example goal "abc" falls through to
the default; the classifier only ever returns relevant or irrelevant. -/
theorem C3_relevant_fallbacks (goal : String) (title url : Option String)
    (categories : List String)
    (h : ∀ cat ∈ categories, ∀ kw ∈ blocklistGet cat,
      ¬ occursIn kw (joinedText goal title url)) :
    ((∃ w ∈ goalWords goal, w <:+: (joinedText goal title url).toList) →
      classify_relevance goal title url categories =
        ("relevant", "Goal keywords found in current context")) ∧
    ((∀ w ∈ goalWords goal, ¬ w <:+: (joinedText goal title url).toList) →
      classify_relevance goal title url categories =
        ("relevant", "No blocklisted signals detected")) ∧
    (∀ g t u c, (classify_relevance g t u c).1 = "relevant" ∨
      (classify_relevance g t u c).1 = "irrelevant") ∧
    classify_relevance "abc" (some "Unrelated Page") none [] =
      ("relevant", "No blocklisted signals detected") := by
  have hnone : findBlocked categories (joinedText goal title url) = none :=
    (findBlocked_eq_none_iff categories _).mpr h
  exact ⟨fun hany => classify_of_none_goal_kw goal title url categories hnone hany,
    fun hnot => classify_of_none_default goal title url categories hnone hnot,
    fun g t u c => classify_decision_cases g t u c,
    by decide⟩

/-- Witness for C3 (amended) at goal "write thesis chapter". -/
theorem C3_relevant_fallbacks_witness :
    classify_relevance "write thesis chapter"
        (some "Thesis Chapter Draft - Google Docs") none [] =
      ("relevant", "Goal keywords found in current context") :=
  (C3_relevant_fallbacks "write thesis chapter"
      (some "Thesis Chapter Draft - Google Docs") none [] (by simp)).1
    ⟨"write".toList, by decide, by decide⟩

/-- Counterexample to claim C4 as stated: with both a games keyword
("steam") and a social keyword ("twitter") in the blob, the reported
match follows the order the session lists its categories, not the
static table's declaration order (social before games), so the result
is not independent of the session's category order. -/
theorem C4_counterexample :
    classify_relevance "plan" (some "steam and twitter") none ["games", "social"] =
      ("irrelevant", matchReason "steam" "games") ∧
    classify_relevance "plan" (some "steam and twitter") none ["social", "games"] =
      ("irrelevant", matchReason "twitter" "social") ∧
    classify_relevance "plan" (some "steam and twitter") none ["games", "social"] ≠
      classify_relevance "plan" (some "steam and twitter") none ["social", "games"] := by
  decide

/-- Claim C4 (amended: the winning match is the first match scanning
the session's enabled-category list in its listed order, with keywords
inside each category in table-declaration order — not the static
table's category order, and not independent of the session's order):
whenever (kw, cat) is that first match, the classifier reports exactly
it. -/
theorem C4_first_match_session_order (goal : String) (title url : Option String)
    (categories : List String) (kw cat : String)
    (h : FirstMatch categories (joinedText goal title url) kw cat) :
    classify_relevance goal title url categories = ("irrelevant", matchReason kw cat) :=
  classify_of_findBlocked_some goal title url categories kw cat
    (findBlocked_of_firstMatch categories _ kw cat h)

/-- Witness for C4 (amended): with categories ["games", "social"] and
both keywords present, ("steam", "games") is the first match and is
reported. -/
theorem C4_first_match_session_order_witness :
    classify_relevance "plan" (some "steam and twitter") none ["games", "social"] =
      ("irrelevant", matchReason "steam" "games") :=
  C4_first_match_session_order "plan" (some "steam and twitter") none
    ["games", "social"] "steam" "games"
    ⟨[], ["social"], rfl, by simp,
      [], ["epicgames", "roblox", "league of legends", "valorant"], by decide,
      by simp, by decide⟩

/-- Claim C10 (implicit): the goal itself is part of the matched blob,
so whenever no blocked keyword matches and the goal has a word longer
than 3 characters, the classifier returns the goal-keyword reason
regardless of title and url; consequently the default reason can only
be returned when every word of the goal has length at most 3. -/
theorem C10_goal_self_match (goal : String) (title url : Option String)
    (categories : List String)
    (hb : ∀ cat ∈ categories, ∀ kw ∈ blocklistGet cat,
      ¬ occursIn kw (joinedText goal title url)) :
    ((∃ w ∈ splitWS (lowerStr goal).toList, 3 < w.length) →
      classify_relevance goal title url categories =
        ("relevant", "Goal keywords found in current context")) ∧
    ((classify_relevance goal title url categories).2 = "No blocklisted signals detected" →
      ∀ w ∈ splitWS (lowerStr goal).toList, w.length ≤ 3) := by
  have hnone : findBlocked categories (joinedText goal title url) = none :=
    (findBlocked_eq_none_iff categories _).mpr hb
  have hself : ∀ w ∈ splitWS (lowerStr goal).toList,
      w <:+: (joinedText goal title url).toList := by
    intro w hw
    exact (mem_splitWS_sub _ w hw).trans (lower_goal_sub_joined goal title url).isInfix
  constructor
  · intro hex
    rcases hex with ⟨w, hw, hlen⟩
    apply classify_of_none_goal_kw goal title url categories hnone
    refine ⟨w, ?_, hself w hw⟩
    rw [goalWords, List.mem_filter]
    exact ⟨hw, by simpa using hlen⟩
  · intro hreason w hw
    by_contra hlen
    have hwg : w ∈ goalWords goal := by
      rw [goalWords, List.mem_filter]
      exact ⟨hw, by simpa using Nat.lt_of_not_le (fun hle => hlen hle)⟩
    have := classify_of_none_goal_kw goal title url categories hnone ⟨w, hwg, hself w hw⟩
    rw [this] at hreason
    exact absurd hreason (by decide)

/-- Witness for C10: goal "finish report" with no enabled categories
and an unrelated title still classifies with the goal-keyword reason. -/
theorem C10_goal_self_match_witness :
    classify_relevance "finish report" (some "Unrelated Page") none [] =
      ("relevant", "Goal keywords found in current context") :=
  (C10_goal_self_match "finish report" (some "Unrelated Page") none [] (by simp)).1
    ⟨"finish".toList, by decide, by decide⟩

/-- The `sdoc'` counter update computed inside `update_activity`. -/
def accrue (sdoc : SessionDoc) (p : UpdateActivityRequest) : SessionDoc :=
  if (classify_relevance sdoc.goal p.title p.url sdoc.categories).1 = "irrelevant" then
    { sdoc with distractions_blocked := sdoc.distractions_blocked + 1 }
  else
    { sdoc with total_focus_seconds := sdoc.total_focus_seconds + 30 }

theorem update_activity_ok (st : Store) (p : UpdateActivityRequest) (sdoc : SessionDoc)
    (hfind : st.sessions p.session_id = some sdoc) :
    update_activity st p = Except.ok
      ({ st with
          sessions := fun k => if k = p.session_id then some (accrue sdoc p) else st.sessions k
          events := st.events ++
            [{ session_id := p.session_id, user_id := p.user_id, app := p.app,
               url := p.url, title := p.title, idle := p.idle,
               decision := (classify_relevance sdoc.goal p.title p.url sdoc.categories).1,
               reason := (classify_relevance sdoc.goal p.title p.url sdoc.categories).2 }] },
        classify_relevance sdoc.goal p.title p.url sdoc.categories) := by
  unfold update_activity
  rw [hfind]
  rfl

theorem update_activity_ok_spec (st : Store) (p : UpdateActivityRequest) (sdoc : SessionDoc)
    (hfind : st.sessions p.session_id = some sdoc) :
    ∃ st', update_activity st p =
        Except.ok (st', classify_relevance sdoc.goal p.title p.url sdoc.categories) ∧
      st'.sessions p.session_id = some (accrue sdoc p) := by
  refine ⟨_, update_activity_ok st p sdoc hfind, ?_⟩
  simp

theorem accrue_fields (sdoc : SessionDoc) (p : UpdateActivityRequest) :
    (accrue sdoc p).goal = sdoc.goal ∧ (accrue sdoc p).categories = sdoc.categories ∧
    (accrue sdoc p).status = sdoc.status ∧
    (accrue sdoc p).total_idle_seconds = sdoc.total_idle_seconds := by
  rw [accrue]
  split
  · exact ⟨rfl, rfl, rfl, rfl⟩
  · exact ⟨rfl, rfl, rfl, rfl⟩

theorem accrue_irrelevant (sdoc : SessionDoc) (p : UpdateActivityRequest)
    (h : (classify_relevance sdoc.goal p.title p.url sdoc.categories).1 = "irrelevant") :
    accrue sdoc p = { sdoc with distractions_blocked := sdoc.distractions_blocked + 1 } := by
  rw [accrue, if_pos h]

theorem accrue_relevant (sdoc : SessionDoc) (p : UpdateActivityRequest)
    (h : ¬ (classify_relevance sdoc.goal p.title p.url sdoc.categories).1 = "irrelevant") :
    accrue sdoc p = { sdoc with total_focus_seconds := sdoc.total_focus_seconds + 30 } := by
  rw [accrue, if_neg h]

theorem accrue_classify_eq (sdoc : SessionDoc) (p : UpdateActivityRequest) :
    classify_relevance (accrue sdoc p).goal p.title p.url (accrue sdoc p).categories =
      classify_relevance sdoc.goal p.title p.url sdoc.categories := by
  rw [(accrue_fields sdoc p).1, (accrue_fields sdoc p).2.1]

/-- Claim C2: on an existing session, an irrelevant decision increments
distractions_blocked by exactly 1 keeping total_focus_seconds, a
relevant decision increments total_focus_seconds by exactly 30 keeping
distractions_blocked, and total_idle_seconds is never incremented,
whatever the event's idle flag. -/
theorem C2_accrual (st : Store) (p : UpdateActivityRequest) (sdoc : SessionDoc)
    (hfind : st.sessions p.session_id = some sdoc) :
    ∃ st' dr, update_activity st p = Except.ok (st', dr) ∧
      dr = classify_relevance sdoc.goal p.title p.url sdoc.categories ∧
      ∃ sdoc', st'.sessions p.session_id = some sdoc' ∧
        sdoc'.total_idle_seconds = sdoc.total_idle_seconds ∧
        (dr.1 = "irrelevant" →
          sdoc'.distractions_blocked = sdoc.distractions_blocked + 1 ∧
          sdoc'.total_focus_seconds = sdoc.total_focus_seconds) ∧
        (dr.1 = "relevant" →
          sdoc'.total_focus_seconds = sdoc.total_focus_seconds + 30 ∧
          sdoc'.distractions_blocked = sdoc.distractions_blocked) := by
  obtain ⟨st', hok, hs⟩ := update_activity_ok_spec st p sdoc hfind
  refine ⟨st', _, hok, rfl, accrue sdoc p, hs, (accrue_fields sdoc p).2.2.2, ?_, ?_⟩
  · intro hdec
    rw [accrue_irrelevant sdoc p hdec]
    exact ⟨rfl, rfl⟩
  · intro hrel
    have hdec : ¬ (classify_relevance sdoc.goal p.title p.url sdoc.categories).1 =
        "irrelevant" := by
      rw [hrel]
      decide
    rw [accrue_relevant sdoc p hdec]
    exact ⟨rfl, rfl⟩

/-- Witness for C2 at the concrete one-session store. -/
theorem C2_accrual_witness :
    wStore.sessions 0 = some wSession ∧
    (∃ st' dr, update_activity wStore wActivity = Except.ok (st', dr) ∧
      dr = classify_relevance wSession.goal wActivity.title wActivity.url
        wSession.categories ∧
      ∃ sdoc', st'.sessions 0 = some sdoc' ∧
        sdoc'.total_idle_seconds = wSession.total_idle_seconds ∧
        (dr.1 = "irrelevant" →
          sdoc'.distractions_blocked = wSession.distractions_blocked + 1 ∧
          sdoc'.total_focus_seconds = wSession.total_focus_seconds) ∧
        (dr.1 = "relevant" →
          sdoc'.total_focus_seconds = wSession.total_focus_seconds + 30 ∧
          sdoc'.distractions_blocked = wSession.distractions_blocked)) :=
  ⟨rfl, C2_accrual wStore wActivity wSession rfl⟩

/-- Claim C5: POST /api/session/activity on an unknown session id fails
with the 404 "Session not found" error and leaves the store unchanged
(no event appended, no counter touched); on an existing session it
succeeds and returns the classifier's (decision, reason). -/
theorem C5_activity_notfound (st : Store) (p : UpdateActivityRequest) :
    (st.sessions p.session_id = none →
      update_activity st p = Except.error (ApiError.notFound "Session not found") ∧
      applyOp st (Op.activity p) = st) ∧
    (∀ sdoc, st.sessions p.session_id = some sdoc →
      ∃ st', update_activity st p =
        Except.ok (st', classify_relevance sdoc.goal p.title p.url sdoc.categories)) := by
  constructor
  · intro hnone
    have herr : update_activity st p =
        Except.error (ApiError.notFound "Session not found") := by
      simp only [update_activity, hnone]
    refine ⟨herr, ?_⟩
    rw [applyOp, herr]
  · intro sdoc hfind
    rcases update_activity_ok_spec st p sdoc hfind with ⟨st', hok, _⟩
    exact ⟨st', hok⟩

/-- Witness for C5: the empty store 404s, the one-session store
succeeds with the classifier's verdict. -/
theorem C5_activity_notfound_witness :
    (update_activity emptyStore wActivity =
      Except.error (ApiError.notFound "Session not found") ∧
     applyOp emptyStore (Op.activity wActivity) = emptyStore) ∧
    (∃ st', update_activity wStore wActivity =
      Except.ok (st', classify_relevance wSession.goal wActivity.title wActivity.url
        wSession.categories)) :=
  ⟨(C5_activity_notfound emptyStore wActivity).1 rfl,
   (C5_activity_notfound wStore wActivity).2 wSession rfl⟩

/-- Claim C9: the activity endpoint is not idempotent — the same
payload applied twice yields the same decision twice and increments the
affected counter by twice the single increment (distractions by 2 or
focus by 60) — and a session whose status is already ended (the status
is arbitrary here, see the witness) still accepts and accrues events. -/
theorem C9_not_idempotent (st : Store) (p : UpdateActivityRequest) (sdoc : SessionDoc)
    (hfind : st.sessions p.session_id = some sdoc) :
    ∃ st₁ st₂ dr sdoc₂,
      update_activity st p = Except.ok (st₁, dr) ∧
      update_activity st₁ p = Except.ok (st₂, dr) ∧
      st₂.sessions p.session_id = some sdoc₂ ∧
      sdoc₂.status = sdoc.status ∧
      ((dr.1 = "irrelevant" ∧
        sdoc₂.distractions_blocked = sdoc.distractions_blocked + 2 ∧
        sdoc₂.total_focus_seconds = sdoc.total_focus_seconds) ∨
       (dr.1 = "relevant" ∧
        sdoc₂.total_focus_seconds = sdoc.total_focus_seconds + 60 ∧
        sdoc₂.distractions_blocked = sdoc.distractions_blocked)) := by
  obtain ⟨st₁, hok₁, hs₁⟩ := update_activity_ok_spec st p sdoc hfind
  obtain ⟨st₂, hok₂, hs₂⟩ := update_activity_ok_spec st₁ p (accrue sdoc p) hs₁
  rw [accrue_classify_eq sdoc p] at hok₂
  refine ⟨st₁, st₂, _, accrue (accrue sdoc p) p, hok₁, hok₂, hs₂, ?_, ?_⟩
  · rw [(accrue_fields (accrue sdoc p) p).2.2.1, (accrue_fields sdoc p).2.2.1]
  · by_cases hdec :
        (classify_relevance sdoc.goal p.title p.url sdoc.categories).1 = "irrelevant"
    · left
      have hdec₁ : (classify_relevance (accrue sdoc p).goal p.title p.url
          (accrue sdoc p).categories).1 = "irrelevant" := by
        rw [accrue_classify_eq sdoc p]
        exact hdec
      refine ⟨hdec, ?_, ?_⟩
      · rw [accrue_irrelevant (accrue sdoc p) p hdec₁, accrue_irrelevant sdoc p hdec]
        simp only
        omega
      · rw [accrue_irrelevant (accrue sdoc p) p hdec₁, accrue_irrelevant sdoc p hdec]
    · right
      have hrel : (classify_relevance sdoc.goal p.title p.url sdoc.categories).1 =
          "relevant" := by
        rcases classify_decision_cases sdoc.goal p.title p.url sdoc.categories with h | h
        · exact h
        · exact absurd h hdec
      have hdec₁ : ¬ (classify_relevance (accrue sdoc p).goal p.title p.url
          (accrue sdoc p).categories).1 = "irrelevant" := by
        rw [accrue_classify_eq sdoc p]
        exact hdec
      refine ⟨hrel, ?_, ?_⟩
      · rw [accrue_relevant (accrue sdoc p) p hdec₁, accrue_relevant sdoc p hdec]
        simp only
        omega
      · rw [accrue_relevant (accrue sdoc p) p hdec₁, accrue_relevant sdoc p hdec]

/-- Witness for C9 at a concrete already-ended session: the two calls
both succeed and distractions_blocked goes up by 2. -/
theorem C9_not_idempotent_witness :
    wEndedStore.sessions 0 = some wEndedSession ∧
    (∃ st₁ st₂ dr sdoc₂,
      update_activity wEndedStore wActivity = Except.ok (st₁, dr) ∧
      update_activity st₁ wActivity = Except.ok (st₂, dr) ∧
      st₂.sessions 0 = some sdoc₂ ∧
      sdoc₂.status = wEndedSession.status ∧
      ((dr.1 = "irrelevant" ∧
        sdoc₂.distractions_blocked = wEndedSession.distractions_blocked + 2 ∧
        sdoc₂.total_focus_seconds = wEndedSession.total_focus_seconds) ∨
       (dr.1 = "relevant" ∧
        sdoc₂.total_focus_seconds = wEndedSession.total_focus_seconds + 60 ∧
        sdoc₂.distractions_blocked = wEndedSession.distractions_blocked))) :=
  ⟨rfl, C9_not_idempotent wEndedStore wActivity wEndedSession rfl⟩

/-- Claim C6: the summary reads at most 50 of the user's sessions,
reports their count, the sums of the three counters over them, and
min(count, 7) as streak_days; the two-session example sums to
sessions=2, focus=150, distractions=3, streak=2.  (`session_summary`
is a pure function of the store — it performs no mutation by its
type.) -/
theorem C6_summary (st : Store) (uid : String) :
    (session_summary st uid).sessions = (get_documents st uid 50).length ∧
    (session_summary st uid).sessions ≤ 50 ∧
    (session_summary st uid).total_focus_seconds =
      ((get_documents st uid 50).map (fun s => s.total_focus_seconds)).sum ∧
    (session_summary st uid).total_idle_seconds =
      ((get_documents st uid 50).map (fun s => s.total_idle_seconds)).sum ∧
    (session_summary st uid).distractions_blocked =
      ((get_documents st uid 50).map (fun s => s.distractions_blocked)).sum ∧
    (session_summary st uid).streak_days = min (session_summary st uid).sessions 7 ∧
    session_summary sumStore "u1" =
      { sessions := 2, total_focus_seconds := 150, total_idle_seconds := 0,
        distractions_blocked := 3, streak_days := 2 } := by
  refine ⟨rfl, ?_, rfl, rfl, rfl, rfl, by decide⟩
  show (get_documents st uid 50).length ≤ 50
  exact List.length_take_le 50 _

/-- Claim C7: starting from the empty store, over any operation
sequence and any continuation of it, a session's three counters never
decrease and an ended status is terminal (only active → ended happens). -/
theorem C7_monotone_terminal (ops more : List Op) (id : Nat) (d d' : SessionDoc)
    (h1 : (runOps ops emptyStore).sessions id = some d)
    (h2 : (runOps (ops ++ more) emptyStore).sessions id = some d') :
    d.total_focus_seconds ≤ d'.total_focus_seconds ∧
    d.total_idle_seconds ≤ d'.total_idle_seconds ∧
    d.distractions_blocked ≤ d'.distractions_blocked ∧
    (d.status = Status.ended → d'.status = Status.ended) := by
  have hwf := runOps_WF ops emptyStore emptyStore_WF
  rcases runOps_mono more (runOps ops emptyStore) hwf id d h1 with ⟨d₂, hd₂, hle⟩
  have hsplit : runOps (ops ++ more) emptyStore = runOps more (runOps ops emptyStore) := by
    rw [runOps, runOps, runOps, List.foldl_append]
  rw [hsplit, hd₂] at h2
  rw [← Option.some.inj h2]
  exact hle

/-- Witness for C7: start a 25-minute session, then apply one
blocked-keyword activity event; the counters only grew and the status
stayed non-ended. -/
theorem C7_monotone_terminal_witness :
    wSession.total_focus_seconds ≤
      ({ wSession with distractions_blocked := 1 } : SessionDoc).total_focus_seconds ∧
    wSession.total_idle_seconds ≤
      ({ wSession with distractions_blocked := 1 } : SessionDoc).total_idle_seconds ∧
    wSession.distractions_blocked ≤
      ({ wSession with distractions_blocked := 1 } : SessionDoc).distractions_blocked ∧
    (wSession.status = Status.ended →
      ({ wSession with distractions_blocked := 1 } : SessionDoc).status = Status.ended) :=
  C7_monotone_terminal [Op.start (wStartDur 25)] [Op.activity wActivity] 0 wSession
    { wSession with distractions_blocked := 1 } (by decide) (by decide)

/-- Claim C8: POST /api/session/start creates a session exactly when
1 ≤ duration_minutes ≤ 480, rejecting anything else with the pydantic
validation error; 0 and 481 are rejected, 1 and 480 accepted. -/
theorem C8_duration_validation (st : Store) (p : StartSessionRequest) :
    ((∃ r, start_session st p = Except.ok r) ↔
      1 ≤ p.duration_minutes ∧ p.duration_minutes ≤ 480) ∧
    (¬ (1 ≤ p.duration_minutes ∧ p.duration_minutes ≤ 480) →
      start_session st p = Except.error ApiError.validationError ∧
      applyOp st (Op.start p) = st) ∧
    (1 ≤ p.duration_minutes ∧ p.duration_minutes ≤ 480 →
      ∃ st', start_session st p = Except.ok (st', st.nextId, Status.active) ∧
        st'.sessions st.nextId = some (newSessionDoc p)) ∧
    start_session emptyStore (wStartDur 0) = Except.error ApiError.validationError ∧
    start_session emptyStore (wStartDur 481) = Except.error ApiError.validationError ∧
    (∃ r, start_session emptyStore (wStartDur 1) = Except.ok r) ∧
    (∃ r, start_session emptyStore (wStartDur 480) = Except.ok r) := by
  refine ⟨?_, ?_, ?_,
    by rw [start_session, if_neg (by decide)],
    by rw [start_session, if_neg (by decide)],
    ⟨_, by rw [start_session, if_pos (by decide)]⟩,
    ⟨_, by rw [start_session, if_pos (by decide)]⟩⟩
  · constructor
    · rintro ⟨r, hr⟩
      by_contra hv
      rw [start_session, if_neg hv] at hr
      exact absurd hr (by simp)
    · intro hv
      exact ⟨_, by rw [start_session, if_pos hv]⟩
  · intro hv
    have herr : start_session st p = Except.error ApiError.validationError := by
      rw [start_session, if_neg hv]
    refine ⟨herr, ?_⟩
    rw [applyOp, herr]
  · intro hv
    refine ⟨_, by rw [start_session, if_pos hv], ?_⟩
    simp

/-- Witness for C8: duration 500 is rejected leaving the store alone,
duration 25 creates the session document under the fresh id. -/
theorem C8_duration_validation_witness :
    (start_session emptyStore (wStartDur 500) = Except.error ApiError.validationError ∧
     applyOp emptyStore (Op.start (wStartDur 500)) = emptyStore) ∧
    (∃ st', start_session emptyStore (wStartDur 25) =
        Except.ok (st', emptyStore.nextId, Status.active) ∧
      st'.sessions emptyStore.nextId = some (newSessionDoc (wStartDur 25))) :=
  ⟨(C8_duration_validation emptyStore (wStartDur 500)).2.1 (by decide),
   (C8_duration_validation emptyStore (wStartDur 25)).2.2.1 (by decide)⟩

end FocusAI
